import Mathlib

/-!
Verification of the PyQueueNote message-proxy core (`mproxy`), as a shallow
embedding of the Python source into Lean.

Embedded fragments:
* `mproxy/vchannel.py`: `get_delay_in_seconds`, the
  `WaitExponentialOrByRetryAfterValue` backoff policy, the tenacity-driven
  retry loop of `VirtualChannel.assign_worker`, and the channel state
  transitions (`activate`, `deactivate`, the delivery-loop counter updates).
* `mproxy/queues.py`: `AIOQueue` over `asyncio.Queue` semantics.
* `mproxy/workers.py`: the response classification of `Telegram.operate`.
* `mproxy/server.py`: `HTTPParameter.extract_param`, `Controller.send_message`,
  `Controller.ping` and the error-mapping middleware.

Machine integers are modelled as `Int` (Python ints are unbounded), Python
floats as `Rat` (inputs of interest are exactly representable), and fallible
code returns `Except PyErr`.
-/

deriving instance DecidableEq for Except

namespace MProxy

/-- Python exception kinds raised by the embedded code paths. -/
inductive PyErr where
  | valueError
  | attributeError
  | referenceError
  | keyError
  | temporaryUnawailable (msg : String)
  | requestParameter (msg : String)
  deriving DecidableEq, Repr

/-- A Python value that can appear as a retry hint (`delay` argument of
`WorkerAwaitError`): an int, a float (modelled as `Rat`), or a string. -/
inductive Hint where
  | int (n : Int)
  | real (q : Rat)
  | str (s : String)
  deriving DecidableEq, Repr

/-- Python truthiness of a hint value: `0`, `0.0` and `""` are falsy. -/
def Hint.truthy : Hint → Bool
  | .int n => n ≠ 0
  | .real q => q ≠ 0
  | .str s => s ≠ ""

/-- Truncation toward zero, as Python `int(float)`. -/
def pyTrunc (q : Rat) : Int := q.num.tdiv q.den

/-- Floor of a rational, used through `ratCeil`. -/
def ratFloor (q : Rat) : Int := q.num.fdiv q.den

/-- `math.ceil` on a rational. -/
def ratCeil (q : Rat) : Int := -ratFloor (-q)

/-- Whitespace as Python `int(str)` strips it (the common ASCII subset). -/
def isPySpace (c : Char) : Bool :=
  c = ' ' ∨ c = '\t' ∨ c = '\n' ∨ c = '\r' ∨ c = '\x0b' ∨ c = '\x0c'

/-- Strip leading and trailing whitespace from a character list. -/
def stripChars (l : List Char) : List Char :=
  ((l.dropWhile isPySpace).reverse.dropWhile isPySpace).reverse

/-- Digits of a numeric literal to a natural number; `none` when any
character is not a decimal digit or the list is empty. -/
def digitsToNat (cs : List Char) : Option Nat :=
  if cs ≠ [] ∧ cs.all Char.isDigit then
    some (cs.foldl (fun a c => 10 * a + (c.toNat - 48)) 0)
  else
    none

/-- Python `int(s)` on a string: optional surrounding whitespace, an optional
sign, then decimal digits; anything else raises `ValueError` (`none`). -/
def pyIntOfString (s : String) : Option Int :=
  match stripChars s.data with
  | '+' :: rest => (digitsToNat rest).map Int.ofNat
  | '-' :: rest => (digitsToNat rest).map (fun n => -(n : Int))
  | l => (digitsToNat l).map Int.ofNat

/-- `str.endswith` on the embedded strings. -/
def pyEndsWith (s suffix : String) : Bool := suffix.data.isSuffixOf s.data

/-- `'UTC' → '+0000'` on a character list, replacing every occurrence as
Python `str.replace` does. -/
def replaceUTCChars : List Char → List Char
  | 'U' :: 'T' :: 'C' :: rest => '+' :: '0' :: '0' :: '0' :: '0' :: replaceUTCChars rest
  | c :: rest => c :: replaceUTCChars rest
  | [] => []

/-- `s.replace('UTC', '+0000')`. -/
def pyReplaceUTC (s : String) : String := ⟨replaceUTCChars s.data⟩

/-- The date-parsing and clock environment of `get_delay_in_seconds`
(`vchannel.py:26`).  `parseGMT s` models
`datetime.strptime(s, '%a, %d %b %Y %H:%M:%S %Z').timestamp()` (`none` =
`ValueError`), `parseTZ` the `'%a, %d %b %Y %H:%M:%S %z'` variant, and
`nowLocal` / `nowUtc` the two `datetime.now` timestamps.  A string built
from a number (`str(30)`, `str(3.5)`) never matches either format. -/
structure Clock where
  parseGMT : String → Option Rat
  parseTZ : String → Option Rat
  nowLocal : Rat
  nowUtc : Rat

/-- A clock whose date parser rejects everything; enough for numeric and
unparseable hints, which never reach a successful date parse. -/
def trivialClock : Clock := ⟨fun _ => none, fun _ => none, 0, 0⟩

/-- `get_delay_in_seconds` (`vchannel.py:26-41`).  `str(delay)` of an int or
float never ends in `GMT`/`UTC` and never parses as a date, so those inputs
fall to the `except ValueError: return int(delay)` branch directly.  For a
string the matching date format is tried; on `ValueError` the ORIGINAL string
is passed to `int(...)`, whose own `ValueError` escapes the handler. -/
def get_delay_in_seconds (c : Clock) : Hint → Except PyErr Int
  | .int n => .ok n
  | .real q => .ok (pyTrunc q)
  | .str s =>
    if pyEndsWith s "GMT" then
      match c.parseGMT s with
      | some t => .ok (ratCeil (t - c.nowLocal))
      | none =>
        match pyIntOfString s with
        | some n => .ok n
        | none => .error .valueError
    else
      let sv := if pyEndsWith s "UTC" then pyReplaceUTC s else s
      match c.parseTZ sv with
      | some t => .ok (ratCeil (t - c.nowUtc))
      | none =>
        match pyIntOfString s with
        | some n => .ok n
        | none => .error .valueError

/-- The exception object as the wait policy sees it: `delay = none` models an
object that has no `delay` attribute (the `WorkerAwaitError` of
`exceptions.py` stores `_delay` and exposes no `delay`). -/
structure ExcObj where
  delay : Option Hint
  deriving DecidableEq

/-- `WaitExponentialOrByRetryAfterValue` (`vchannel.py:44-68`): `starts` =
min wait, `ends` = max wait, `base` = exponent base. -/
structure WaitExponentialOrByRetryAfterValue where
  starts : Int
  ends : Int
  base : Int
  deriving DecidableEq

namespace WaitExponentialOrByRetryAfterValue

/-- `calculate_delay` (`vchannel.py:64-68`).  On Python ints the power never
overflows, so the `except OverflowError: return self._ends` branch is
unreachable; exponent is the 1-based tenacity attempt number. -/
def calculate_delay (w : WaitExponentialOrByRetryAfterValue) (rate : Nat) : Int :=
  w.starts + w.base ^ rate

/-- `__call__` (`vchannel.py:50-62`).  `exc = none` models a retry state with
no exception (`ReferenceError`).  The attribute access `exception.delay` sits
OUTSIDE the `try`, so a missing attribute propagates `AttributeError`; inside
the `try` only `AttributeError` is caught, so a `ValueError` from
`get_delay_in_seconds` propagates to the caller. -/
def callOn (w : WaitExponentialOrByRetryAfterValue) (attempt : Nat)
    (exc : Option ExcObj) (c : Clock) : Except PyErr Int :=
  match exc with
  | none => .error .referenceError
  | some e =>
    match e.delay with
    | none => .error .attributeError
    | some d =>
      let delay := w.calculate_delay attempt
      if d.truthy then
        match get_delay_in_seconds c d with
        | .error er => .error er
        | .ok od => .ok (min (if 0 ≤ od then od else delay) w.ends)
      else
        .ok (min delay w.ends)

end WaitExponentialOrByRetryAfterValue

/-- Outcome of one `worker.operate(message)` call as observed by the retry
loop of `VirtualChannel.assign_worker`. -/
inductive AttemptOutcome where
  | success
  | awaitErr
  | execErr
  | otherErr
  deriving DecidableEq, Repr

/-- Final result of the tenacity-wrapped `execute` for one message. -/
inductive RetryResult where
  | delivered
  | awaitFailure
  | execFailure
  | otherFailure
  deriving DecidableEq, Repr

/-- The tenacity retry loop around `execute` in `VirtualChannel.assign_worker`
(`vchannel.py:116-123`): `stop=stop_after_attempt(max)`,
`retry=retry_if_exception_type(WorkerAwaitError)`, `reraise=True`.
`op k` is the outcome of the (k+1)-th `operate` call; `fuel` is the number of
attempts still allowed.  After a `WorkerAwaitError`, tenacity checks the stop
condition: when the attempt just made was attempt number `max` (fuel
exhausted) the error is re-raised, otherwise another attempt runs.  Returns
(number of `operate` calls, final result). -/
def retryLoop (op : Nat → AttemptOutcome) : Nat → Nat → Nat × RetryResult
  | _, 0 => (0, .awaitFailure)
  | k, fuel + 1 =>
    match op k with
    | .success => (1, .delivered)
    | .execErr => (1, .execFailure)
    | .otherErr => (1, .otherFailure)
    | .awaitErr =>
      if fuel = 0 then (1, .awaitFailure)
      else
        let r := retryLoop op (k + 1) fuel
        (r.1 + 1, r.2)

/-- `execute(worker, message)` for one message with retry budget
`maxAttempts`, starting at the first attempt. -/
def executeWithRetry (maxAttempts : Nat) (op : Nat → AttemptOutcome) :
    Nat × RetryResult :=
  retryLoop op 0 maxAttempts

/-- `AIOQueue` (`queues.py:27-53`) over `asyncio.Queue(queue_size)`:
`maxsize` and the ordered item list. -/
structure AIOQueue (α : Type) where
  maxsize : Nat
  items : List α
  deriving DecidableEq, Repr

namespace AIOQueue

/-- `asyncio.Queue.full()`: false when `maxsize ≤ 0` (unbounded), else
`qsize ≥ maxsize`. -/
def full (q : AIOQueue α) : Bool :=
  0 < q.maxsize ∧ q.maxsize ≤ q.items.length

/-- `add_task` (`queues.py:33-41`): `put_nowait`; on `QueueFull` raises
`TemporaryUnawailableError('This queue is full. Try again later')`. -/
def add_task (q : AIOQueue α) (m : α) : Except PyErr (AIOQueue α) :=
  if q.full then
    .error (.temporaryUnawailable "This queue is full. Try again later")
  else
    .ok { q with items := q.items ++ [m] }

/-- `get_task` (`queues.py:43-50`): awaits the oldest item; `none` models the
suspended (empty-queue) case. -/
def get_task (q : AIOQueue α) : Option (α × AIOQueue α) :=
  match q.items with
  | [] => none
  | m :: rest => some (m, { q with items := rest })

/-- `current_items` (`queues.py:52-53`): `qsize()`. -/
def current_items (q : AIOQueue α) : Nat := q.items.length

end AIOQueue

/-- One externally triggered queue operation. -/
inductive QOp (α : Type) where
  | add (m : α)
  | take
  deriving DecidableEq, Repr

/-- Run a sequence of queue operations.  State: current queue, list of items
returned by `get_task` so far (oldest first), list of items accepted by
successful `add_task` calls (in call order).  A failed `add_task` leaves the
queue untouched; a `take` on an empty queue suspends (no-op here). -/
def runQueue (q : AIOQueue α) (taken acc : List α) :
    List (QOp α) → AIOQueue α × List α × List α
  | [] => (q, taken, acc)
  | .add m :: rest =>
    match q.add_task m with
    | .ok q' => runQueue q' taken (acc ++ [m]) rest
    | .error _ => runQueue q taken acc rest
  | .take :: rest =>
    match q.get_task with
    | some (m, q') => runQueue q' (taken ++ [m]) acc rest
    | none => runQueue q taken acc rest

/-- State of `VirtualChannel._task`: `noTask` = `None`, `running` = a live
task, `done` = a finished task object still referenced. -/
inductive TaskState where
  | noTask
  | running
  | done
  deriving DecidableEq, Repr

/-- The mutable state of a `VirtualChannel` (`vchannel.py:71-159`) relevant
to its counters and lifecycle. -/
structure VirtualChannel where
  task : TaskState
  sent : Nat
  rejected : Nat
  lastError : Option String
  deriving DecidableEq, Repr

/-- Operations on a `VirtualChannel` that touch its state: the public
lifecycle calls, the delivery-loop events that update counters
(`assign_worker`, `vchannel.py:125-147`), and the read accessors. -/
inductive VCOp where
  | activate
  | deactivate
  | loopSent
  | loopRejected (reason : String)
  | loopCancelled
  | getState
  | getLastError (clear : Bool)
  deriving DecidableEq, Repr

/-- One state transition of a `VirtualChannel`.
* `activate` (`vchannel.py:99-106`): raises when the task is live, otherwise
  creates the task and RESETS both counters and `last_error`.
* `deactivate` (`vchannel.py:108-113`): no-op when `_task is None`, otherwise
  cancels and drops the task.
* `loopSent`: `self._messages_send += 1` after a delivered message.
* `loopRejected`: `_set_last_error` + `self._messages_rejected += 1` on
  `WorkerExecutionError`, exhausted `WorkerAwaitError`, or unknown errors.
* `loopCancelled`: records `'Worker was stopped'` and exits the loop.
* `getState` reads; `getLastError` optionally clears `last_error`. -/
def VirtualChannel.step (vc : VirtualChannel) : VCOp → VirtualChannel
  | .activate =>
    if vc.task = .running then vc
    else { vc with task := .running, sent := 0, rejected := 0, lastError := none }
  | .deactivate =>
    if vc.task = .noTask then vc else { vc with task := .noTask }
  | .loopSent => { vc with sent := vc.sent + 1 }
  | .loopRejected reason =>
    { vc with rejected := vc.rejected + 1, lastError := some reason }
  | .loopCancelled => { vc with lastError := some "Worker was stopped" }
  | .getState => vc
  | .getLastError clear =>
    if clear then { vc with lastError := none } else vc

/-- The upstream response as `Telegram.operate` (`workers.py:105-125`) sees
it after `execute_query`: HTTP status, the decoded body's `ok` field (absent
for non-JSON bodies), whether `data['result']['message_id']` exists, and the
body's `description`. -/
structure TelegramResponse where
  status : Nat
  ok : Option Bool
  hasMessageId : Bool
  description : Option String
  deriving DecidableEq, Repr

/-- What a worker `operate` call can produce, including the worker error
taxonomy of `exceptions.py`. -/
inductive WorkerOutcome where
  | success
  | awaitError (state : Nat) (reason : String) (delay : Option Hint)
  | execError (state : Nat) (reason : String)
  | pyError (e : PyErr)
  deriving DecidableEq, Repr

/-- `Telegram.operate` (`workers.py:105-125`), response handling: when
`response['data'].get('ok', False)` it logs the accepted message (reading
`data['result']['message_id']`, a `KeyError` if absent) and returns; in EVERY
other case it logs a warning and returns normally — no `WorkerAwaitError` or
`WorkerExecutionError` is ever raised (the `# TODO add special errors
raising` marks the gap). -/
def Telegram.operate (resp : TelegramResponse) : WorkerOutcome :=
  if resp.ok.getD false then
    if resp.hasMessageId then .success else .pyError .keyError
  else
    .success

/-- An incoming HTTP request as `HTTPParameter.extract_param` reads it:
the URL `match_info`, the POSTed form body, and the query string, each a
name → value mapping. -/
structure Request where
  matchInfo : List (String × String)
  postData : List (String × String)
  query : List (String × String)
  deriving DecidableEq, Repr

/-- Where `extract_param` found the value: the `'resource'`, `'POST'`,
`'GET'` and `'default'` tags of `HTTPParameter`. -/
inductive ParamSource where
  | resource
  | post
  | get
  | dflt
  deriving DecidableEq, Repr

/-- `HTTPParameter.extract_param` (`server.py:86-112`): try the URL path
match, then the POST body, then the query string; when the name is absent
from all three, raise `RequestParameterError` if `required`, else return the
supplied default (`None` if not given). -/
def HTTPParameter.extract_param (name : String) (req : Request)
    (required : Bool) (default : Option String) :
    Except PyErr (Option String × ParamSource) :=
  match req.matchInfo.lookup name with
  | some v => .ok (some v, .resource)
  | none =>
    match req.postData.lookup name with
    | some v => .ok (some v, .post)
    | none =>
      match req.query.lookup name with
      | some v => .ok (some v, .get)
      | none =>
        if required then
          .error (.requestParameter
            ("Request parameter " ++ name ++ " is not presented in the request"))
        else
          .ok (default, .dflt)

/-- Body of an HTTP response produced by the controller or the middleware. -/
inductive RespBody where
  | text (s : String)
  | jsonStatusTrue
  | jsonError (msg : String)
  deriving DecidableEq, Repr

/-- An HTTP response: status, body, optional `Retry-After` header. -/
structure HttpResponse where
  status : Nat
  body : RespBody
  retryAfter : Option Nat
  deriving DecidableEq, Repr

/-- Per-channel view the controller needs: `is_running` and the channel's
queue. -/
structure ChannelInfo where
  isRunning : Bool
  queue : AIOQueue String
  deriving DecidableEq, Repr

/-- Application-level state read by the handlers: the `maintenance` flag,
the channel collection, and `retry_after`. -/
structure AppEnv where
  maintenance : Bool
  channels : List (String × ChannelInfo)
  retryAfter : Nat

/-- The message of a Python exception, as `str(e)` used by the middleware. -/
def PyErr.message : PyErr → String
  | .valueError => "ValueError"
  | .attributeError => "AttributeError"
  | .referenceError => "ReferenceError"
  | .keyError => "KeyError"
  | .temporaryUnawailable m => m
  | .requestParameter m => m

/-- `Controller.send_message` (`server.py:130-161`).  Extracts `v_channel`,
`delay` (extracted but unused by this handler) and `message`; rejects an
unknown channel or an empty message with `RequestParameterError`, an
inactive channel with `TemporaryUnawailableError`, enqueues the message
(whose `add_task` may itself raise), and answers `{'status': True}`.
The handler performs NO check of the application's maintenance flag.
A required extraction never yields the default, so `getD ""` after a
successful required `extract_param` is the extracted value itself. -/
def Controller.send_message (env : AppEnv) (req : Request) :
    Except PyErr HttpResponse :=
  match HTTPParameter.extract_param "v_channel" req true none with
  | .error e => .error e
  | .ok channel =>
    match HTTPParameter.extract_param "delay" req false (some "0") with
    | .error e => .error e
    | .ok _ =>
      match HTTPParameter.extract_param "message" req true none with
      | .error e => .error e
      | .ok message =>
        let channelV := channel.1.getD ""
        let messageV := message.1.getD ""
        match env.channels.lookup channelV with
        | none => .error (.requestParameter ("Unknown channel " ++ channelV))
        | some info =>
          if messageV.length = 0 then
            .error (.requestParameter "Message could not be empty")
          else if ¬ info.isRunning then
            .error (.temporaryUnawailable "Channel is not available for now")
          else
            match info.queue.add_task messageV with
            | .error e => .error e
            | .ok _ => .ok ⟨200, .jsonStatusTrue, none⟩

/-- `Controller.ping` (`server.py:163-167`): `503 FAIL` with `Retry-After`
under maintenance, else `200 OK`. -/
def Controller.ping (env : AppEnv) : HttpResponse :=
  if env.maintenance then ⟨503, .text "FAIL", some env.retryAfter⟩
  else ⟨200, .text "OK", none⟩

/-- `handle_errors_middleware` (`server.py:170-181`): maps
`RequestParameterError` to 422, `TemporaryUnawailableError` to 503, any
other exception to 500, each with `{'success': False, 'error': str(e)}`. -/
def handle_errors_middleware (r : Except PyErr HttpResponse) : HttpResponse :=
  match r with
  | .ok resp => resp
  | .error (.requestParameter m) => ⟨422, .jsonError m, none⟩
  | .error (.temporaryUnawailable m) => ⟨503, .jsonError m, none⟩
  | .error e => ⟨500, .jsonError e.message, none⟩

/-- The `/api/send/{v_channel}` endpoint as served: handler wrapped in the
error middleware. -/
def servedSend (env : AppEnv) (req : Request) : HttpResponse :=
  handle_errors_middleware (Controller.send_message env req)

/-! Theorems. -/

/-- C1: the claim says `Telegram.operate` succeeds iff status 200 with
`ok == true`, raises a retriable `WorkerAwaitError` on 408/502/503/504
and a terminal `WorkerExecutionError` otherwise.  The code contradicts it
(and its own test suite): a 503 response with `ok: false` is handled by a
log-and-return, i.e. the call completes as a success, and no response
whatsoever can produce a worker error. -/
theorem C1_telegram_operate_never_raises :
    Telegram.operate ⟨503, some false, false, some "Service Unavailable"⟩ = .success ∧
    ∀ (resp : TelegramResponse) (st : Nat) (reason : String) (d : Option Hint),
      Telegram.operate resp ≠ .awaitError st reason d ∧
      Telegram.operate resp ≠ .execError st reason := by
  refine ⟨rfl, fun resp st reason d => ?_⟩
  unfold Telegram.operate
  refine ⟨?_, ?_⟩ <;> split <;> first | (split <;> simp) | simp

/-- C2 counterexample: take min_wait 5, max_wait 7200, base 4, attempt 1 and
an error carrying the integer retry hint 0.  The hint parses to 0 ≥ 0, so the
claim demands min(0, 7200) = 0; the code returns the exponential default
min(5 + 4^1, 7200) = 9, because `if exception.delay:` treats the integer 0 as
falsy and never consults the hint. -/
theorem C2_counterexample_zero_hint :
    WaitExponentialOrByRetryAfterValue.callOn ⟨5, 7200, 4⟩ 1
      (some ⟨some (.int 0)⟩) trivialClock = .ok 9 ∧
    (Except.ok 9 : Except PyErr Int) ≠ .ok (min 0 7200) := by
  decide

/-- C2 (amended): for every attempt k and error whose `delay` attribute is
present, the wait is min(min_wait + base^k, max_wait) when the hint is falsy
(integer/float 0 or the empty string), and when the hint is truthy and parses
to v it is min(v, max_wait) for v ≥ 0 and the exponential default clamped to
max_wait for v < 0.  (Python ints never overflow, so the overflow saturation
of `calculate_delay` is unreachable.) -/
theorem C2_wait_min_of_delay_and_max
    (w : WaitExponentialOrByRetryAfterValue) (k : Nat) (d : Hint) (c : Clock) :
    (d.truthy = false →
      w.callOn k (some ⟨some d⟩) c = .ok (min (w.starts + w.base ^ k) w.ends)) ∧
    (∀ v : Int, d.truthy = true → get_delay_in_seconds c d = .ok v →
      w.callOn k (some ⟨some d⟩) c =
        .ok (min (if 0 ≤ v then v else w.starts + w.base ^ k) w.ends)) := by
  constructor
  · intro h
    simp [WaitExponentialOrByRetryAfterValue.callOn,
      WaitExponentialOrByRetryAfterValue.calculate_delay, h]
  · intro v ht hv
    simp [WaitExponentialOrByRetryAfterValue.callOn,
      WaitExponentialOrByRetryAfterValue.calculate_delay, ht, hv]

/-- C2 witness: a truthy numeric-string hint overrides the default. -/
theorem C2_witness :
    WaitExponentialOrByRetryAfterValue.callOn ⟨5, 7200, 4⟩ 3
      (some ⟨some (.str "42")⟩) trivialClock = .ok 42 := by
  have h := (C2_wait_min_of_delay_and_max ⟨5, 7200, 4⟩ 3 (.str "42") trivialClock).2
    42 (by decide) (by decide)
  norm_num at h
  exact h

/-- C3 counterexample: for the unparseable hint string `"soon"` the claim
demands the exponential default min(5 + 4^1, 7200) = 9; the code instead
propagates the `ValueError` from `int('soon')` to its caller, because the
policy's `try` only catches `AttributeError`. -/
theorem C3_counterexample_unparseable_hint :
    WaitExponentialOrByRetryAfterValue.callOn ⟨5, 7200, 4⟩ 1
      (some ⟨some (.str "soon")⟩) trivialClock = .error .valueError ∧
    (Except.error PyErr.valueError : Except PyErr Int) ≠ .ok (min (5 + 4 ^ 1) 7200) := by
  decide

/-- C3 (amended): when parsing a (non-empty) retry-hint string fails, the
wait function does NOT fall back to the exponential default: the `ValueError`
escapes `WaitExponentialOrByRetryAfterValue.__call__` to its caller; only an
`AttributeError` would be suppressed. -/
theorem C3_parse_failure_propagates
    (w : WaitExponentialOrByRetryAfterValue) (k : Nat) (s : String) (c : Clock)
    (hne : s ≠ "") (hfail : get_delay_in_seconds c (.str s) = .error .valueError) :
    w.callOn k (some ⟨some (.str s)⟩) c = .error .valueError := by
  have ht : Hint.truthy (.str s) = true := by simp [Hint.truthy, hne]
  simp [WaitExponentialOrByRetryAfterValue.callOn, ht, hfail]

/-- C3 witness: the hint `"tomorrow"` parses neither as a date nor as an
integer, and the `ValueError` reaches the policy's caller. -/
theorem C3_witness :
    WaitExponentialOrByRetryAfterValue.callOn ⟨1, 3600, 4⟩ 2
      (some ⟨some (.str "tomorrow")⟩) trivialClock = .error .valueError :=
  C3_parse_failure_propagates ⟨1, 3600, 4⟩ 2 "tomorrow" trivialClock
    (by decide) (by decide)

/-- C4 counterexample: the integer hint −5 is returned as −5, so the claimed
non-negativity of the result fails (nothing clamps numeric hints). -/
theorem C4_counterexample_negative_hint :
    get_delay_in_seconds trivialClock (.int (-5)) = .ok (-5) ∧
    ¬ (0 : Int) ≤ -5 := by
  decide

/-- C4 (amended): an integer hint is returned unchanged and a real hint is
truncated toward zero — in both cases WITHOUT clamping, so negative inputs
yield negative results; a string hint that the date formats reject and that
denotes an integer is returned as that integer.  (A string denoting a
non-integer real such as `"3.5"` instead raises `ValueError`, since
`int(str)` rejects it.) -/
theorem C4_numeric_hint_truncation (c : Clock) :
    (∀ n : Int, get_delay_in_seconds c (.int n) = .ok n) ∧
    (∀ q : Rat, get_delay_in_seconds c (.real q) = .ok (pyTrunc q)) ∧
    (∀ (s : String) (n : Int),
      c.parseGMT s = none → c.parseTZ s = none → c.parseTZ (pyReplaceUTC s) = none →
      pyIntOfString s = some n →
      get_delay_in_seconds c (.str s) = .ok n) := by
  refine ⟨fun n => rfl, fun q => rfl, ?_⟩
  intro s n hg ht htu hi
  unfold get_delay_in_seconds
  by_cases h1 : pyEndsWith s "GMT"
  · simp [h1, hg, hi]
  · by_cases h2 : pyEndsWith s "UTC" <;> simp [h1, h2, ht, htu, hi]

/-- C4 witness: the string `" 30 "` (with the whitespace `int` accepts)
parses to 30 seconds. -/
theorem C4_witness :
    get_delay_in_seconds trivialClock (.str " 30 ") = .ok 30 :=
  (C4_numeric_hint_truncation trivialClock).2.2 " 30 " 30 rfl rfl rfl (by decide)

/-- C5: the claim says every endpoint except `/api/ping` answers 503 under
maintenance.  The code contradicts it (and its own test suite):
`Controller.send_message` never reads the maintenance flag, so with
`maintenance = true` a valid send to a running channel is accepted with
200 `{'status': True}`.  Only the ping half of the claim holds: 503 `FAIL`
with a `Retry-After` header. -/
theorem C5_send_ignores_maintenance :
    servedSend ⟨true, [("TestChannel", ⟨true, ⟨3, []⟩⟩)], 120⟩
        ⟨[("v_channel", "TestChannel")], [("message", "hello")], []⟩ =
      ⟨200, .jsonStatusTrue, none⟩ ∧
    Controller.ping ⟨true, [("TestChannel", ⟨true, ⟨3, []⟩⟩)], 120⟩ =
      ⟨503, .text "FAIL", some 120⟩ := by
  decide

/-- The retry loop performs at most `fuel` operate calls. -/
theorem retryLoop_count_le (op : Nat → AttemptOutcome) :
    ∀ fuel k : Nat, (retryLoop op k fuel).1 ≤ fuel := by
  intro fuel
  induction fuel with
  | zero => intro k; simp [retryLoop]
  | succ n ih =>
    intro k
    cases hop : op k with
    | success => simp [retryLoop, hop]
    | execErr => simp [retryLoop, hop]
    | otherErr => simp [retryLoop, hop]
    | awaitErr =>
      by_cases hn : n = 0
      · simp [retryLoop, hop, hn]
      · have h1 : (retryLoop op k (n + 1)).1 = (retryLoop op (k + 1) n).1 + 1 := by
          simp [retryLoop, hop, hn]
        have := ih (k + 1)
        omega

/-- Every attempt after the first happens only because the previous attempt
raised a retriable `WorkerAwaitError`. -/
theorem retryLoop_retries_only_await (op : Nat → AttemptOutcome) :
    ∀ fuel k i : Nat, i + 1 < (retryLoop op k fuel).1 → op (k + i) = .awaitErr := by
  intro fuel
  induction fuel with
  | zero => intro k i h; simp [retryLoop] at h
  | succ n ih =>
    intro k i h
    cases hop : op k with
    | success => simp [retryLoop, hop] at h
    | execErr => simp [retryLoop, hop] at h
    | otherErr => simp [retryLoop, hop] at h
    | awaitErr =>
      by_cases hn : n = 0
      · simp [retryLoop, hop, hn] at h
      · simp only [retryLoop, hop, hn, if_false] at h
        cases i with
        | zero => simpa using hop
        | succ j =>
          have hj : j + 1 < (retryLoop op (k + 1) n).1 := by omega
          have hres := ih (k + 1) j hj
          rw [show k + (j + 1) = k + 1 + j by omega]
          exact hres

/-- C6: for a retry budget `max_attempts ≥ 1`, the tenacity-wrapped
`execute` of `VirtualChannel.assign_worker` calls `worker.operate` at most
`max_attempts` times per message, and any attempt beyond the first happens
only because the previous one raised `WorkerAwaitError`. -/
theorem C6_retry_bound (maxAttempts : Nat) (_h : 1 ≤ maxAttempts)
    (op : Nat → AttemptOutcome) :
    (executeWithRetry maxAttempts op).1 ≤ maxAttempts ∧
    ∀ i : Nat, i + 1 < (executeWithRetry maxAttempts op).1 → op i = .awaitErr := by
  refine ⟨retryLoop_count_le op maxAttempts 0, fun i hi => ?_⟩
  have := retryLoop_retries_only_await op maxAttempts 0 i hi
  simpa using this

/-- C6 witness: a worker that always raises `WorkerAwaitError` is attempted
at most twice under a budget of 2. -/
theorem C6_witness :
    (executeWithRetry 2 (fun _ => .awaitErr)).1 ≤ 2 ∧
    ∀ i : Nat, i + 1 < (executeWithRetry 2 (fun _ => AttemptOutcome.awaitErr)).1 →
      (fun _ => AttemptOutcome.awaitErr) i = .awaitErr :=
  C6_retry_bound 2 (by decide) (fun _ => .awaitErr)

/-- Running any operation sequence preserves the queue's capacity and, when
the capacity is positive, the occupancy bound. -/
theorem runQueue_maxsize_and_bound {α : Type} (ops : List (QOp α)) :
    ∀ (q : AIOQueue α) (taken acc : List α),
      1 ≤ q.maxsize → q.items.length ≤ q.maxsize →
      (runQueue q taken acc ops).1.maxsize = q.maxsize ∧
      (runQueue q taken acc ops).1.items.length ≤ q.maxsize := by
  induction ops with
  | nil => intro q taken acc _ h2; exact ⟨rfl, h2⟩
  | cons op rest ih =>
    intro q taken acc h1 h2
    cases op with
    | add m =>
      by_cases hf : q.full
      · simp only [runQueue, AIOQueue.add_task, hf, if_true]
        exact ih q taken acc h1 h2
      · simp only [runQueue, AIOQueue.add_task, hf, if_false]
        have hlt : q.items.length < q.maxsize := by
          simp only [AIOQueue.full, decide_eq_true_eq, not_and, not_le] at hf
          exact hf h1
        have := ih { q with items := q.items ++ [m] } taken (acc ++ [m])
          (by simpa using h1) (by simp; omega)
        simpa using this
    | take =>
      cases hq : q.items with
      | nil =>
        simp only [runQueue, AIOQueue.get_task, hq]
        exact ih q (taken) acc h1 h2
      | cons x xs =>
        simp only [runQueue, AIOQueue.get_task, hq]
        have := ih { q with items := xs } (taken ++ [x]) acc
          (by simpa using h1) (by simp; rw [hq] at h2; simp at h2; omega)
        simpa using this

/-- C7: starting from an empty queue of positive capacity `queue_size`, the
queue never holds more than `queue_size` items, and `add_task` raises
`TemporaryUnawailableError` exactly when the queue holds `queue_size`
items (`put_nowait` is the non-blocking put). -/
theorem C7_bounded_queue {α : Type} (size : Nat) (hs : 1 ≤ size)
    (ops : List (QOp α)) :
    (runQueue (⟨size, []⟩ : AIOQueue α) [] [] ops).1.items.length ≤ size ∧
    ∀ m : α,
      ((runQueue (⟨size, []⟩ : AIOQueue α) [] [] ops).1.add_task m =
          .error (.temporaryUnawailable "This queue is full. Try again later") ↔
        (runQueue (⟨size, []⟩ : AIOQueue α) [] [] ops).1.items.length = size) := by
  obtain ⟨hmax, hlen⟩ :=
    runQueue_maxsize_and_bound ops (⟨size, []⟩ : AIOQueue α) [] [] hs (by simp)
  replace hmax : (runQueue (⟨size, []⟩ : AIOQueue α) [] [] ops).1.maxsize = size := hmax
  replace hlen : (runQueue (⟨size, []⟩ : AIOQueue α) [] [] ops).1.items.length ≤ size := hlen
  refine ⟨hlen, fun m => ?_⟩
  cases hfb : (runQueue (⟨size, []⟩ : AIOQueue α) [] [] ops).1.full with
  | true =>
    have hfu := hfb
    simp only [AIOQueue.full, decide_eq_true_eq] at hfu
    simp only [AIOQueue.add_task, hfb, if_true]
    simp only [true_iff, reduceCtorEq, false_iff]
    omega
  | false =>
    have hfu := hfb
    simp only [AIOQueue.full] at hfu
    rw [decide_eq_false_iff_not] at hfu
    simp only [AIOQueue.add_task, hfb, Bool.false_eq_true, if_false]
    simp only [reduceCtorEq, false_iff]
    omega

/-- C7 witness: a queue of capacity 2 fed three `add_task` calls holds two
items and rejects further adds. -/
theorem C7_witness :
    (runQueue (⟨2, []⟩ : AIOQueue Nat) [] [] [.add 1, .add 2, .add 3]).1.items.length ≤ 2 ∧
    ∀ m : Nat,
      ((runQueue (⟨2, []⟩ : AIOQueue Nat) [] [] [.add 1, .add 2, .add 3]).1.add_task m =
          .error (.temporaryUnawailable "This queue is full. Try again later") ↔
        (runQueue (⟨2, []⟩ : AIOQueue Nat) [] [] [.add 1, .add 2, .add 3]).1.items.length = 2) :=
  C7_bounded_queue 2 (by decide) [.add 1, .add 2, .add 3]

/-- FIFO invariant: the items already taken, followed by the items still
queued, are exactly the successfully enqueued items in insertion order. -/
theorem runQueue_fifo_inv {α : Type} (ops : List (QOp α)) :
    ∀ (q : AIOQueue α) (taken acc : List α), taken ++ q.items = acc →
      (runQueue q taken acc ops).2.1 ++ (runQueue q taken acc ops).1.items =
        (runQueue q taken acc ops).2.2 := by
  induction ops with
  | nil => intro q taken acc h; simpa [runQueue] using h
  | cons op rest ih =>
    intro q taken acc h
    cases op with
    | add m =>
      by_cases hf : q.full
      · simp only [runQueue, AIOQueue.add_task, hf, if_true]
        exact ih q taken acc h
      · simp only [runQueue, AIOQueue.add_task, hf, if_false]
        exact ih { q with items := q.items ++ [m] } taken (acc ++ [m])
          (by rw [← h]; simp)
    | take =>
      cases hq : q.items with
      | nil =>
        simp only [runQueue, AIOQueue.get_task, hq]
        exact ih q taken acc h
      | cons x xs =>
        simp only [runQueue, AIOQueue.get_task, hq]
        exact ih { q with items := xs } (taken ++ [x]) acc
          (by rw [← h, hq]; simp)

/-- C8: strict FIFO with exactly-once enqueue — after any operation
sequence on a channel's queue, the messages returned by `get_task` (in
return order) followed by the messages still queued are precisely the
messages accepted by successful `add_task` calls, in enqueue order. -/
theorem C8_fifo_exactly_once {α : Type} (size : Nat) (ops : List (QOp α)) :
    (runQueue (⟨size, []⟩ : AIOQueue α) [] [] ops).2.1 ++
      (runQueue (⟨size, []⟩ : AIOQueue α) [] [] ops).1.items =
    (runQueue (⟨size, []⟩ : AIOQueue α) [] [] ops).2.2 :=
  runQueue_fifo_inv ops (⟨size, []⟩ : AIOQueue α) [] [] (by simp)

/-- C9 counterexample: a channel that has delivered 2 messages and is then
re-activated has its `sent` counter reset to 0 — a decrease, contradicting
the claim that no operation (activate included) decreases the counters. -/
theorem C9_counterexample_activate_resets :
    (VirtualChannel.step ⟨.noTask, 2, 3, none⟩ .activate).sent = 0 ∧
    ¬ (⟨.noTask, 2, 3, none⟩ : VirtualChannel).sent ≤
        (VirtualChannel.step ⟨.noTask, 2, 3, none⟩ .activate).sent := by
  decide

/-- C9 (amended): every channel operation except `activate` leaves the
`sent` and `rejected` counters non-decreasing; `activate` on a live task is
rejected without touching the state, and otherwise resets both counters to
zero. -/
theorem C9_counters_monotone_except_activate (vc : VirtualChannel) (op : VCOp)
    (h : op ≠ .activate) :
    (vc.sent ≤ (vc.step op).sent ∧ vc.rejected ≤ (vc.step op).rejected) ∧
    (vc.task = .running → vc.step .activate = vc) ∧
    (vc.task ≠ .running → (vc.step .activate).sent = 0 ∧
      (vc.step .activate).rejected = 0) := by
  refine ⟨?_, ?_, ?_⟩
  · cases op with
    | activate => exact absurd rfl h
    | deactivate =>
      by_cases ht : vc.task = .noTask <;> simp [VirtualChannel.step, ht]
    | loopSent => simp [VirtualChannel.step]
    | loopRejected reason => simp [VirtualChannel.step]
    | loopCancelled => simp [VirtualChannel.step]
    | getState => simp [VirtualChannel.step]
    | getLastError clear =>
      by_cases hc : clear = true <;> simp [VirtualChannel.step, hc]
  · intro ht; simp [VirtualChannel.step, ht]
  · intro ht; simp [VirtualChannel.step, ht]

/-- C9 witness: a successful delivery increments `sent` and leaves
`rejected` in place on a running channel. -/
theorem C9_witness :
    ((⟨.running, 1, 1, none⟩ : VirtualChannel).sent ≤
        (VirtualChannel.step ⟨.running, 1, 1, none⟩ .loopSent).sent ∧
      (⟨.running, 1, 1, none⟩ : VirtualChannel).rejected ≤
        (VirtualChannel.step ⟨.running, 1, 1, none⟩ .loopSent).rejected) ∧
    ((⟨.running, 1, 1, none⟩ : VirtualChannel).task = .running →
      VirtualChannel.step ⟨.running, 1, 1, none⟩ .activate = ⟨.running, 1, 1, none⟩) ∧
    ((⟨.running, 1, 1, none⟩ : VirtualChannel).task ≠ .running →
      (VirtualChannel.step ⟨.running, 1, 1, none⟩ .activate).sent = 0 ∧
      (VirtualChannel.step ⟨.running, 1, 1, none⟩ .activate).rejected = 0) :=
  C9_counters_monotone_except_activate ⟨.running, 1, 1, none⟩ .loopSent (by decide)

/-- C10: `extract_param` resolves a parameter by checking the URL path
match, then the POST form body, then the query string, in that order; when
the name is absent from all three it raises `RequestParameterError` if
`required` and returns the supplied default otherwise. -/
theorem C10_extract_param_precedence (name : String) (req : Request)
    (required : Bool) (default : Option String) :
    (∀ v, req.matchInfo.lookup name = some v →
      HTTPParameter.extract_param name req required default = .ok (some v, .resource)) ∧
    (∀ v, req.matchInfo.lookup name = none → req.postData.lookup name = some v →
      HTTPParameter.extract_param name req required default = .ok (some v, .post)) ∧
    (∀ v, req.matchInfo.lookup name = none → req.postData.lookup name = none →
      req.query.lookup name = some v →
      HTTPParameter.extract_param name req required default = .ok (some v, .get)) ∧
    (req.matchInfo.lookup name = none → req.postData.lookup name = none →
      req.query.lookup name = none → required = true →
      HTTPParameter.extract_param name req required default =
        .error (.requestParameter
          ("Request parameter " ++ name ++ " is not presented in the request"))) ∧
    (req.matchInfo.lookup name = none → req.postData.lookup name = none →
      req.query.lookup name = none → required = false →
      HTTPParameter.extract_param name req required default = .ok (default, .dflt)) := by
  refine ⟨?_, ?_, ?_, ?_, ?_⟩
  · intro v h1; simp [HTTPParameter.extract_param, h1]
  · intro v h1 h2; simp [HTTPParameter.extract_param, h1, h2]
  · intro v h1 h2 h3; simp [HTTPParameter.extract_param, h1, h2, h3]
  · intro h1 h2 h3 h4; simp [HTTPParameter.extract_param, h1, h2, h3, h4]
  · intro h1 h2 h3 h4; simp [HTTPParameter.extract_param, h1, h2, h3, h4]

/-- C10 witness: a name present in both the POST body and the query string
resolves from the POST body when the path match lacks it. -/
theorem C10_witness :
    HTTPParameter.extract_param "x" ⟨[], [("x", "1")], [("x", "2")]⟩ true none =
      .ok (some "1", .post) :=
  (C10_extract_param_precedence "x" ⟨[], [("x", "1")], [("x", "2")]⟩ true none).2.1
    "1" (by decide) (by decide)

end MProxy
